import Mathlib

/-!
A shallow embedding of the error-transmission and shutdown coordinator of
`just-lick-it/infrastructure` (Go).  The repository ships three concatenated
source documents: the functional-options file, an asynchronous channel-based
variant (`NewProjectManagement`, with a background `processError` consumer),
and a synchronous variant (`NewProjectInfrastructure`, direct logging inside
`ErrorTransmit`).  Both variants are embedded here.

Modelling conventions:
* The logrus sink is modelled as a list of `SinkCall`s (severity-leveled
  write API); level filtering and writer selection are the sink's own
  concern and are outside the embedding, per the repository design.
* `pkg/errors` error values are modelled by `GoError`, a wrap chain of
  messages (`errors.New` / `errors.Wrap`).  Stack frames printed by `%+v`
  are I/O noise not representable in the embedding; the message chain is
  modelled exactly.  A Go `error` interface value that may be nil is
  `Option GoError`.
* Go runtime panics (nil dereference, nil function call, send on closed
  channel, negative WaitGroup counter) are explicit `GoPanic` values; a
  function body that can panic returns its events so far together with a
  `BodyEnd`; the `recover()` wrapper of `ErrorTransmit` is a separate
  function layered on the body, exactly as the deferred recover is in Go.
* `time.Now().Format(...)` is nondeterministic input and is passed in as a
  `now : String` parameter.
* `os.Exit(1)` is a terminal outcome (`Outcome.exited 1`); deferred
  functions do not run past it.
-/

namespace Infra

/-- logrus severity levels used by the coordinator. -/
inductive Level where
  | debug
  | info
  | warn
  | error
deriving DecidableEq

/-- One call into the log sink: a leveled write of a formatted string. -/
structure SinkCall where
  level : Level
  msg : String
deriving DecidableEq

/-- Error values of `github.com/pkg/errors` as a wrap chain:
`base` is `errors.New(msg)`, `wrap` is `errors.Wrap(inner, msg)`. -/
inductive GoError where
  | base (msg : String)
  | wrap (msg : String) (inner : GoError)
deriving DecidableEq

/-- Rendering of `err.Error()` for pkg/errors: a wrap renders as `msg: inner.Error()`. -/
def errMessage : GoError → String
  | .base m => m
  | .wrap m inner => m ++ ": " ++ errMessage inner

/-- The `errors.Cause` function: unwrap the chain down to the deepest underlying cause. -/
def cause : GoError → GoError
  | .base m => .base m
  | .wrap _ inner => cause inner

/-- Rendering of `fmt.Sprintf("%+v", err)` for pkg/errors, restricted to the message
chain (stack frames omitted): a wrapped error prints the `%+v` of its
cause first, then its own message on the next line. -/
def fmtPlusV : GoError → String
  | .base m => m
  | .wrap m inner => fmtPlusV inner ++ "\n" ++ m

/-- The messages of every layer of the chain, innermost (root cause)
first, in the order `%+v` prints them. -/
def layers : GoError → List String
  | .base m => [m]
  | .wrap m inner => layers inner ++ [m]

/-- The root (innermost) cause's message. -/
def rootMsg : GoError → String
  | .base m => m
  | .wrap _ inner => rootMsg inner

/-- Joining lines with a newline, as `%+v` chains them. -/
def joinLines : List String → String
  | [] => ""
  | [x] => x
  | x :: y :: xs => x ++ "\n" ++ joinLines (y :: xs)

/-- Rendering of `fmt.Sprintf("%+v", err)` where the Go `error` interface value may be
nil: formatting a nil error prints `<nil>` and does not panic. -/
def fmtPlusVOpt : Option GoError → String
  | none => "<nil>"
  | some e => fmtPlusV e

/-- Lifting of `errors.Cause` to a possibly-nil error: `errors.Cause(nil)` returns nil. -/
def causeOpt : Option GoError → Option GoError
  | none => none
  | some e => some (cause e)

/-- Go runtime panic values reachable in this code. -/
inductive GoPanic where
  | nilDeref
  | sendOnClosed
  | negativeWaitGroup
deriving DecidableEq

/-- The `%+v` rendering of each recovered panic value.  Calling a nil
function and dereferencing a nil interface produce the same runtime
error message in Go. -/
def panicMsg : GoPanic → String
  | .nilDeref => "runtime error: invalid memory address or nil pointer dereference"
  | .sendOnClosed => "send on closed channel"
  | .negativeWaitGroup => "sync: negative WaitGroup counter"

/-- ANSI highlight band put around the module name on stdout. -/
def green : String := "\x1b[97;104m"

/-- ANSI reset sequence. -/
def reset : String := "\x1b[0m"

/-- The source's package-level list of supported log types. -/
def supportLogTypes : List String := ["debug", "info", "warn", "error"]

/-- The `%s` rendering of `supportLogTypes` in the construction error. -/
def supportLogTypesStr : String := "[debug info warn error]"

/-- The module-name truncation both formatters perform:
`if len(_module) > 10 { _module = _module[:10] }`.  Go slices bytes;
the embedding slices characters, which coincides for ASCII module names. -/
def truncateModule (m : String) : String :=
  if m.length > 10 then String.mk (m.data.take 10) else m

/-- Go `%-10s` formatting: left-justified padding of the module name to width 10. -/
def padRight10 (s : String) : String :=
  s ++ String.mk (List.replicate (10 - s.length) ' ')

/-- Observable events of a coordinator run. -/
inductive Ev where
  | sink (c : SinkCall)
  | release
  | gcancel
  | closeEndChan
  | closeErrChan
  | exit (code : Nat)
deriving DecidableEq

/-- How a call to `ErrorTransmit` (or `ResourceRelease`) ends for its
caller. -/
inductive Outcome where
  | returned
  | exited (code : Nat)
  | deadlocked
deriving DecidableEq

/-- Events emitted by a call together with how it ends. -/
structure EtResult where
  events : List Ev
  outcome : Outcome
deriving DecidableEq

/-- How a function body (run under a deferred `recover()`) ends. -/
inductive BodyEnd where
  | normal
  | panicked (p : GoPanic)
  | exited (code : Nat)
deriving DecidableEq

/-! ## Synchronous variant (`NewProjectInfrastructure`)

In this variant the options' `LogOut` field is a string switched against
`"stdout"` and `"file"`, and logging happens directly inside
`ErrorTransmit`, guarded by the `WaitGroup` in-flight counter. -/

/-- The configuration fields the synchronous variant reads. -/
structure SyncOptions where
  logLevel : String
  logOut : String
deriving DecidableEq

/-- Synchronous `logFormat`: truncate the module, then format per output
target; a target that is neither `"stdout"` nor `"file"` leaves the
declared `var log string` at its zero value `""`. -/
def logFormatSync (opts : SyncOptions) (now : String) (e : GoError) (module : String) : String :=
  let m := truncateModule module
  if opts.logOut = "stdout" then
    now ++ " " ++ green ++ " " ++ padRight10 m ++ " " ++ reset ++ " " ++ errMessage e
  else if opts.logOut = "file" then
    now ++ " " ++ padRight10 m ++ " " ++ errMessage e
  else
    ""

/-- Synchronous `errorStackMsg`: the condensed prefix without the error
body; same output-target switch as `logFormatSync`. -/
def errorStackMsgSync (opts : SyncOptions) (now : String) (module : String) : String :=
  let m := truncateModule module
  if opts.logOut = "stdout" then
    now ++ " " ++ green ++ " " ++ padRight10 m ++ " " ++ reset
  else if opts.logOut = "file" then
    now ++ " " ++ padRight10 m
  else
    ""

/-- Synchronous `logFormat` applied to a possibly-nil error: the body
calls `_err.Error()`, so a nil error interface panics with a nil
dereference before any sink write happens. -/
def logFormatSyncOpt (opts : SyncOptions) (now : String) (e : Option GoError)
    (module : String) : Except GoPanic String :=
  match e with
  | none => .error .nilDeref
  | some e => .ok (logFormatSync opts now e module)

/-- Synchronous `logOutput`: switch on the severity string; each
recognized branch checks `printStack`; the default branch always goes to
the error method with the unsupported-severity prefix.  Returns the sink
calls made and the panic, if one interrupted formatting. -/
def logOutputSync (opts : SyncOptions) (now : String) (module severity : String)
    (err : Option GoError) (printStack : Bool) : List SinkCall × Option GoPanic :=
  if severity = "debug" then
    if printStack then
      ([⟨.debug, errorStackMsgSync opts now module ++ "\n" ++ fmtPlusVOpt err⟩], none)
    else
      match logFormatSyncOpt opts now (causeOpt err) module with
      | .error p => ([], some p)
      | .ok s => ([⟨.debug, s⟩], none)
  else if severity = "info" then
    if printStack then
      ([⟨.info, errorStackMsgSync opts now module ++ "\n" ++ fmtPlusVOpt err⟩], none)
    else
      match logFormatSyncOpt opts now (causeOpt err) module with
      | .error p => ([], some p)
      | .ok s => ([⟨.info, s⟩], none)
  else if severity = "warn" then
    if printStack then
      ([⟨.warn, errorStackMsgSync opts now module ++ "\n" ++ fmtPlusVOpt err⟩], none)
    else
      match logFormatSyncOpt opts now (causeOpt err) module with
      | .error p => ([], some p)
      | .ok s => ([⟨.warn, s⟩], none)
  else if severity = "error" then
    if printStack then
      ([⟨.error, errorStackMsgSync opts now module ++ "\n" ++ fmtPlusVOpt err⟩], none)
    else
      match logFormatSyncOpt opts now (causeOpt err) module with
      | .error p => ([], some p)
      | .ok s => ([⟨.error, s⟩], none)
  else
    match logFormatSyncOpt opts now (causeOpt err) module with
    | .error p => ([], some p)
    | .ok s => ([⟨.error, "[unsupport error type: " ++ severity ++ "]" ++ s⟩], none)

/-- Synchronous `ResourceRelease`: `pm.releaseFunc()` first — a nil
release function (the `DefaultOptions` value when `WithResourceRleaseFunc`
was never applied) is called unguarded and panics — then
`goroutineCancelFunc()` and `WaitGroup.Wait()`. -/
def resourceReleaseSync (releaseConfigured : Bool) : Except GoPanic (List Ev) :=
  if releaseConfigured then .ok [.release, .gcancel] else .error .nilDeref

/-- The body of the synchronous `ErrorTransmit` (inside the deferred
`recover`): `WaitGroup.Add(1)`, then on the terminal path `logOutput`,
`WaitGroup.Done()`, `ResourceRelease()`, `os.Exit(1)`; on the
non-terminal path just `logOutput`.  A panic raised inside
`ResourceRelease` unwinds through the deferred `WaitGroup.Done()`, whose
counter is already zero, so the panic the recover observes on that path
is the negative-WaitGroup-counter panic. -/
def errorTransmitSyncBody (opts : SyncOptions) (now : String)
    (releaseConfigured : Bool) (module severity : String) (err : Option GoError)
    (exitAfterPrint printStack : Bool) : List Ev × BodyEnd :=
  let (calls, pan) := logOutputSync opts now module severity err printStack
  let evs := calls.map Ev.sink
  match pan with
  | some p => (evs, .panicked p)
  | none =>
    if exitAfterPrint then
      match resourceReleaseSync releaseConfigured with
      | .error _ => (evs, .panicked .negativeWaitGroup)
      | .ok rel => (evs ++ rel ++ [Ev.exit 1], .exited 1)
    else
      (evs, .normal)

/-- Synchronous `ErrorTransmit`: the body under the deferred
`recover()`; a recovered panic is logged as `logrus.Errorf("%+v", r)`
and control returns to the caller. -/
def errorTransmitSync (opts : SyncOptions) (now : String)
    (releaseConfigured : Bool) (module severity : String) (err : Option GoError)
    (exitAfterPrint printStack : Bool) : EtResult :=
  match errorTransmitSyncBody opts now releaseConfigured module severity err
      exitAfterPrint printStack with
  | (evs, .normal) => ⟨evs, .returned⟩
  | (evs, .panicked p) => ⟨evs ++ [Ev.sink ⟨.error, panicMsg p⟩], .returned⟩
  | (evs, .exited n) => ⟨evs, .exited n⟩

/-- The output target bound by synchronous `initLogrus` together with the
warning it may have emitted. -/
structure SinkBinding where
  target : String
  warnings : List SinkCall
deriving DecidableEq

/-- A constructed synchronous coordinator. -/
structure PMSync where
  opts : SyncOptions
  releaseConfigured : Bool
  binding : SinkBinding
  logLevel : Level
deriving DecidableEq

/-- Synchronous `initLogrus`: bind the output writer first (`"stdout"` →
stdout; `"file"` → rotating writer, whose construction may fail, modelled
by `fileWriterOk`; anything else → warn and fall back to stdout), then
validate the log level; an unrecognized level aborts construction. -/
def initLogrusSync (fileWriterOk : Bool) (opts : SyncOptions) :
    Except String (SinkBinding × Level) :=
  let bindOut : Except String SinkBinding :=
    if opts.logOut = "stdout" then .ok ⟨"stdout", []⟩
    else if opts.logOut = "file" then
      if fileWriterOk then .ok ⟨"file", []⟩ else .error "rotatelogs construction failed"
    else
      .ok ⟨"stdout",
        [⟨.warn, "unknown log output type: " ++ opts.logOut ++ ", use default stdout"⟩]⟩
  match bindOut with
  | .error e => .error e
  | .ok b =>
    if opts.logLevel = "debug" then .ok (b, .debug)
    else if opts.logLevel = "info" then .ok (b, .info)
    else if opts.logLevel = "warn" then .ok (b, .warn)
    else if opts.logLevel = "error" then .ok (b, .error)
    else .error ("invalid log level " ++ opts.logLevel ++ ", valid values are "
      ++ supportLogTypesStr)

/-- Construction `NewProjectInfrastructure`: construction succeeds exactly when
`initLogrus` does; on failure no coordinator is produced. -/
def newProjectInfrastructureSync (fileWriterOk : Bool) (opts : SyncOptions)
    (releaseConfigured : Bool) : Except String PMSync :=
  match initLogrusSync fileWriterOk opts with
  | .error e => .error e
  | .ok (b, lvl) => .ok ⟨opts, releaseConfigured, b, lvl⟩

/-! ## Asynchronous variant (`NewProjectManagement`)

Errors are sent as `*finalError` records on a buffered channel and
consumed by the `processError` goroutine.  A terminal call blocks on a
per-call cancellation context that `logOutput` fires only after the log
write, which sequences log → release → exit; that rendezvous is embedded
as the corresponding sequential composition. -/

/-- Asynchronous `logFormat`: no output-target switch, always the
stdout-style highlighted line. -/
def logFormatAsync (now : String) (e : GoError) (module : String) : String :=
  now ++ " " ++ green ++ " " ++ padRight10 (truncateModule module) ++ " " ++ reset
    ++ " " ++ errMessage e

/-- Asynchronous `errorStackMsg`. -/
def errorStackMsgAsync (now : String) (module : String) : String :=
  now ++ " " ++ green ++ " " ++ padRight10 (truncateModule module) ++ " " ++ reset

/-- Asynchronous `logOutput` on a `finalError` whose `err` field is
non-nil (the `processError` guard): one leveled sink call. -/
def logOutputAsync (now : String) (module severity : String) (e : GoError)
    (printStack : Bool) : SinkCall :=
  if severity = "debug" then
    if printStack then ⟨.debug, errorStackMsgAsync now module ++ "\n" ++ fmtPlusV e⟩
    else ⟨.debug, logFormatAsync now (cause e) module⟩
  else if severity = "info" then
    if printStack then ⟨.info, errorStackMsgAsync now module ++ "\n" ++ fmtPlusV e⟩
    else ⟨.info, logFormatAsync now (cause e) module⟩
  else if severity = "warn" then
    if printStack then ⟨.warn, errorStackMsgAsync now module ++ "\n" ++ fmtPlusV e⟩
    else ⟨.warn, logFormatAsync now (cause e) module⟩
  else if severity = "error" then
    if printStack then ⟨.error, errorStackMsgAsync now module ++ "\n" ++ fmtPlusV e⟩
    else ⟨.error, logFormatAsync now (cause e) module⟩
  else
    ⟨.error, "[unsupport error type: " ++ severity ++ "]"
      ++ logFormatAsync now (cause e) module⟩

/-- Handling by `processError` of one received `*finalError`: the record
itself is never a nil interface, the type assertion always succeeds, and
a nil `err` field is skipped without output. -/
def processOneAsync (now : String) (module severity : String) (err : Option GoError)
    (printStack : Bool) : List SinkCall :=
  match err with
  | none => []
  | some e => [logOutputAsync now module severity e printStack]

/-- Asynchronous `ResourceRelease`: nil `releaseFunc` panics unguarded;
otherwise release, cancel the worker lifecycle, wait, then close
`errEndChan` and `errChan`. -/
def resourceReleaseAsync (releaseConfigured : Bool) : Except GoPanic (List Ev) :=
  if releaseConfigured then .ok [.release, .gcancel, .closeEndChan, .closeErrChan]
  else .error .nilDeref

/-- Asynchronous `ErrorTransmit`.  `chanClosed` says whether shutdown has
already closed `errChan`: the send then panics and the deferred recover
logs `send error to closed channel: %+v`.  A terminal call with a nil
error is never logged by `processError`, so its per-call context is never
cancelled and the caller blocks forever.  A terminal call whose release
function is nil panics inside `ResourceRelease`; the recover logs it
(through the same hardcoded prefix) and the process does not exit. -/
def errorTransmitAsync (chanClosed releaseConfigured : Bool) (now : String)
    (module severity : String) (err : Option GoError)
    (exitAfterPrint printStack : Bool) : EtResult :=
  if chanClosed then
    ⟨[Ev.sink ⟨.error, "send error to closed channel: " ++ panicMsg .sendOnClosed⟩],
      .returned⟩
  else if exitAfterPrint then
    match err with
    | none => ⟨[], .deadlocked⟩
    | some e =>
      let c := logOutputAsync now module severity e printStack
      match resourceReleaseAsync releaseConfigured with
      | .ok rel => ⟨Ev.sink c :: rel ++ [Ev.exit 1], .exited 1⟩
      | .error p =>
        ⟨[Ev.sink c, Ev.sink ⟨.error, "send error to closed channel: " ++ panicMsg p⟩],
          .returned⟩
  else
    ⟨(processOneAsync now module severity err printStack).map Ev.sink, .returned⟩

/-- The configuration fields the asynchronous variant reads. -/
structure AsyncOptions where
  logLevel : String
  errChanLen : Nat
  releaseConfigured : Bool
deriving DecidableEq

/-- Defaults of `DefaultOptions()`: `ReleaseFunc` defaults to nil, i.e. no release
callback is configured. -/
def defaultAsyncOptions : AsyncOptions :=
  { logLevel := "debug", errChanLen := 20, releaseConfigured := false }

/-- Asynchronous `initLogrus`: `SetOutput` always succeeds (the options'
writer is an `io.Writer`), then the same level switch. -/
def initLogrusAsync (opts : AsyncOptions) : Except String Level :=
  if opts.logLevel = "debug" then .ok .debug
  else if opts.logLevel = "info" then .ok .info
  else if opts.logLevel = "warn" then .ok .warn
  else if opts.logLevel = "error" then .ok .error
  else .error ("invalid log level " ++ opts.logLevel ++ ", valid values are "
    ++ supportLogTypesStr)

/-- A constructed asynchronous coordinator. -/
structure PMAsync where
  opts : AsyncOptions
  logLevel : Level
deriving DecidableEq

/-- Construction `NewProjectManagement`: construction succeeds exactly when
`initLogrus` does. -/
def newProjectManagementAsync (opts : AsyncOptions) : Except String PMAsync :=
  match initLogrusAsync opts with
  | .error e => .error e
  | .ok lvl => .ok ⟨opts, lvl⟩

/-! ## Interleaving of two concurrent terminal calls (synchronous variant)

Each thread executes the statements of the terminal path of the
synchronous `ErrorTransmit` (with a configured release callback and a
non-nil error) in program order: `WaitGroup.Add(1)`; `logOutput`;
`WaitGroup.Done()`; `releaseFunc()`; `goroutineCancelFunc()`;
`WaitGroup.Wait()` (enabled only when the counter is zero);
`os.Exit(1)` (stops every thread).  Nothing in the code serializes entry
into this sequence. -/

structure RaceState where
  pc0 : Nat
  pc1 : Nat
  wg : Nat
  logCount : Nat
  releaseCount : Nat
  exited : Bool
deriving DecidableEq

/-- One step of the chosen thread (`false` = thread 0, `true` = thread 1);
a step whose guard is not enabled, or taken after the process exited,
changes nothing. -/
def raceStep (s : RaceState) (tid : Bool) : RaceState :=
  if s.exited then s
  else
    let pc := if tid then s.pc1 else s.pc0
    let setPc := fun (s' : RaceState) (n : Nat) =>
      if tid then { s' with pc1 := n } else { s' with pc0 := n }
    match pc with
    | 0 => setPc { s with wg := s.wg + 1 } 1
    | 1 => setPc { s with logCount := s.logCount + 1 } 2
    | 2 => setPc { s with wg := s.wg - 1 } 3
    | 3 => setPc { s with releaseCount := s.releaseCount + 1 } 4
    | 4 => setPc s 5
    | 5 => if s.wg = 0 then setPc s 6 else s
    | 6 => { s with exited := true }
    | _ => s

/-- Run a schedule from the initial state (both threads at the top of the
terminal path). -/
def raceRun (sched : List Bool) : RaceState :=
  List.foldl raceStep ⟨0, 0, 0, 0, 0, false⟩ sched

/-- Recognizer for the release-callback invocation event. -/
def isReleaseEv : Ev → Bool
  | .release => true
  | _ => false

/-- Recognizer for sink-write events. -/
def isSinkEv : Ev → Bool
  | .sink _ => true
  | _ => false

/-- How many times a trace invokes the release callback. -/
def countRelease (evs : List Ev) : Nat :=
  evs.countP isReleaseEv

/-- How many log entries a trace writes to the sink. -/
def countSink (evs : List Ev) : Nat :=
  evs.countP isSinkEv

end Infra

/-! ## Helper lemmas -/

namespace Infra

theorem data_mk_length (l : List Char) : (String.mk l).length = l.length := rfl

theorem truncateModule_length (m : String) : (truncateModule m).length ≤ 10 := by
  unfold truncateModule
  by_cases h : m.length > 10
  · simp only [h, if_true, data_mk_length, List.length_take]
    exact Nat.min_le_left _ _
  · simp only [h, if_false]
    omega

theorem truncateModule_idem (m : String) :
    truncateModule (truncateModule m) = truncateModule m := by
  by_cases hm : m.length > 10
  · have h1 : truncateModule m = String.mk (m.data.take 10) := if_pos hm
    have h2 : (String.mk (m.data.take 10)).length = 10 := by
      have hd : m.length = m.data.length := rfl
      simp only [data_mk_length, List.length_take]
      omega
    rw [h1]
    unfold truncateModule
    rw [h2]
    simp
  · have h1 : truncateModule m = m := if_neg hm
    rw [h1, h1]

theorem cause_cause (e : GoError) : cause (cause e) = cause e := by
  induction e with
  | base m => rfl
  | wrap m inner ih => simpa [cause] using ih

theorem errMessage_cause (e : GoError) : errMessage (cause e) = rootMsg e := by
  induction e with
  | base m => rfl
  | wrap m inner ih => simpa [cause, rootMsg] using ih

theorem layers_ne_nil (e : GoError) : layers e ≠ [] := by
  cases e <;> simp [layers]

theorem joinLines_append (m : String) :
    ∀ (xs : List String), xs ≠ [] → joinLines (xs ++ [m]) = joinLines xs ++ "\n" ++ m
  | [], h => absurd rfl h
  | [x], _ => rfl
  | x :: y :: xs, _ => by
    have ih := joinLines_append m (y :: xs) (by simp)
    simp only [List.cons_append] at ih ⊢
    simp [joinLines, ih, String.append_assoc]

theorem fmtPlusV_eq_joinLines (e : GoError) : fmtPlusV e = joinLines (layers e) := by
  induction e with
  | base m => rfl
  | wrap m inner ih =>
    show fmtPlusV inner ++ "\n" ++ m = joinLines (layers inner ++ [m])
    rw [joinLines_append m (layers inner) (layers_ne_nil inner), ← ih]

theorem layer_occurs_in_chain (e : GoError) (s : String) (hs : s ∈ layers e) :
    s.data <:+: (fmtPlusV e).data := by
  induction e with
  | base m =>
    simp only [layers, List.mem_singleton] at hs
    subst hs
    exact List.infix_refl _
  | wrap m inner ih =>
    have hdata : (fmtPlusV (.wrap m inner)).data
        = (fmtPlusV inner).data ++ ("\n".data ++ m.data) := by
      show (fmtPlusV inner ++ "\n" ++ m).data = _
      simp [String.data_append, List.append_assoc]
    rcases List.mem_append.1 hs with h | h
    · refine (ih h).trans ?_
      rw [hdata]
      exact (List.prefix_append _ _).isInfix
    · simp only [List.mem_singleton] at h
      subst h
      have hsuf : s.data <:+ (fmtPlusV inner ++ "\n" ++ s).data := by
        simp only [String.data_append]
        exact List.suffix_append _ _
      exact hsuf.isInfix

theorem logOutputSync_some (opts : SyncOptions) (now module severity : String)
    (e : GoError) (ps : Bool) :
    ∃ c, logOutputSync opts now module severity (some e) ps = ([c], none) := by
  unfold logOutputSync
  split_ifs <;> exact ⟨_, rfl⟩

theorem logFormatSync_trunc (opts : SyncOptions) (now : String) (e : GoError)
    (m : String) :
    logFormatSync opts now e (truncateModule m) = logFormatSync opts now e m := by
  simp only [logFormatSync, truncateModule_idem]

theorem errorStackMsgSync_trunc (opts : SyncOptions) (now m : String) :
    errorStackMsgSync opts now (truncateModule m) = errorStackMsgSync opts now m := by
  simp only [errorStackMsgSync, truncateModule_idem]

theorem logFormatSyncOpt_trunc (opts : SyncOptions) (now : String)
    (oe : Option GoError) (m : String) :
    logFormatSyncOpt opts now oe (truncateModule m) = logFormatSyncOpt opts now oe m := by
  cases oe <;> simp [logFormatSyncOpt, logFormatSync_trunc]

theorem logOutputSync_trunc (opts : SyncOptions) (now m severity : String)
    (err : Option GoError) (ps : Bool) :
    logOutputSync opts now (truncateModule m) severity err ps
      = logOutputSync opts now m severity err ps := by
  simp only [logOutputSync, errorStackMsgSync_trunc, logFormatSyncOpt_trunc]

theorem logFormatAsync_trunc (now : String) (e : GoError) (m : String) :
    logFormatAsync now e (truncateModule m) = logFormatAsync now e m := by
  simp only [logFormatAsync, truncateModule_idem]

theorem errorStackMsgAsync_trunc (now m : String) :
    errorStackMsgAsync now (truncateModule m) = errorStackMsgAsync now m := by
  simp only [errorStackMsgAsync, truncateModule_idem]

theorem logOutputAsync_trunc (now m severity : String) (e : GoError) (ps : Bool) :
    logOutputAsync now (truncateModule m) severity e ps
      = logOutputAsync now m severity e ps := by
  simp only [logOutputAsync, errorStackMsgAsync_trunc, logFormatAsync_trunc]

end Infra

namespace Infra

theorem logOutputSync_cause_inv (opts : SyncOptions) (now module severity : String)
    (e : GoError) (h : severity ∈ supportLogTypes) :
    logOutputSync opts now module severity (some e) false
      = logOutputSync opts now module severity (some (cause e)) false := by
  simp only [supportLogTypes, List.mem_cons, List.not_mem_nil, or_false] at h
  rcases h with h | h | h | h <;> subst h <;>
    simp [logOutputSync, logFormatSyncOpt, causeOpt, cause_cause]

theorem logOutputAsync_cause_inv (now module severity : String) (e : GoError)
    (h : severity ∈ supportLogTypes) :
    logOutputAsync now module severity e false
      = logOutputAsync now module severity (cause e) false := by
  simp only [supportLogTypes, List.mem_cons, List.not_mem_nil, or_false] at h
  rcases h with h | h | h | h <;> subst h <;>
    simp [logOutputAsync, cause_cause]

theorem logOutputSync_stack (opts : SyncOptions) (now module severity : String)
    (err : Option GoError) (h : severity ∈ supportLogTypes) :
    ∃ lvl, logOutputSync opts now module severity err true
      = ([⟨lvl, errorStackMsgSync opts now module ++ "\n" ++ fmtPlusVOpt err⟩], none) := by
  simp only [supportLogTypes, List.mem_cons, List.not_mem_nil, or_false] at h
  rcases h with h | h | h | h <;> subst h
  · exact ⟨.debug, rfl⟩
  · exact ⟨.info, rfl⟩
  · exact ⟨.warn, rfl⟩
  · exact ⟨.error, rfl⟩

theorem logOutputAsync_stack (now module severity : String) (e : GoError)
    (h : severity ∈ supportLogTypes) :
    ∃ lvl, logOutputAsync now module severity e true
      = ⟨lvl, errorStackMsgAsync now module ++ "\n" ++ fmtPlusV e⟩ := by
  simp only [supportLogTypes, List.mem_cons, List.not_mem_nil, or_false] at h
  rcases h with h | h | h | h <;> subst h
  · exact ⟨.debug, rfl⟩
  · exact ⟨.info, rfl⟩
  · exact ⟨.warn, rfl⟩
  · exact ⟨.error, rfl⟩

theorem infix_stack_msg (pre : String) (e : GoError) (s : String) (hs : s ∈ layers e) :
    s.data <:+: (pre ++ "\n" ++ joinLines (layers e)).data := by
  rw [← fmtPlusV_eq_joinLines]
  have h2 : (fmtPlusV e).data <:+ (pre ++ "\n" ++ fmtPlusV e).data := by
    simp only [String.data_append]
    exact List.suffix_append _ _
  exact (layer_occurs_in_chain e s hs).trans h2.isInfix

/-- Claim C1: a terminal `ErrorTransmit` call (non-nil error, release
callback configured) first writes its own log entry, then invokes the
release callback exactly once, then terminates the process with exit
status 1, in that strict order — in both the synchronous and the
asynchronous variant. -/
theorem c1_terminal_order (opts : SyncOptions) (now module severity : String)
    (e : GoError) (ps : Bool) :
    (∃ c, errorTransmitSync opts now true module severity (some e) true ps
        = ⟨[Ev.sink c, Ev.release, Ev.gcancel, Ev.exit 1], .exited 1⟩
      ∧ countRelease [Ev.sink c, Ev.release, Ev.gcancel, Ev.exit 1] = 1)
    ∧ (∃ c, errorTransmitAsync false true now module severity (some e) true ps
        = ⟨[Ev.sink c, Ev.release, Ev.gcancel, Ev.closeEndChan, Ev.closeErrChan,
            Ev.exit 1], .exited 1⟩
      ∧ countRelease [Ev.sink c, Ev.release, Ev.gcancel, Ev.closeEndChan,
            Ev.closeErrChan, Ev.exit 1] = 1) := by
  constructor
  · obtain ⟨c, hc⟩ := logOutputSync_some opts now module severity e ps
    refine ⟨c, ?_, rfl⟩
    unfold errorTransmitSync errorTransmitSyncBody
    rw [hc]
    rfl
  · exact ⟨logOutputAsync now module severity e ps, rfl, rfl⟩

/-- Claim C2 (code bug): with no release callback configured (the
`DefaultOptions` value is nil), `ResourceRelease` does not complete as a
no-op: both variants call the nil function and panic; on the terminal
`ErrorTransmit` path the recovered panic means the process never reaches
`os.Exit(1)`. -/
theorem c2_nil_release_panics :
    defaultAsyncOptions.releaseConfigured = false
    ∧ resourceReleaseSync defaultAsyncOptions.releaseConfigured = .error .nilDeref
    ∧ resourceReleaseAsync defaultAsyncOptions.releaseConfigured = .error .nilDeref
    ∧ (errorTransmitSync ⟨"debug", "stdout"⟩ "ts" defaultAsyncOptions.releaseConfigured
        "main" "error" (some (.base "boom")) true false).outcome = .returned
    ∧ (errorTransmitAsync false defaultAsyncOptions.releaseConfigured "ts"
        "main" "error" (some (.base "boom")) true false).outcome = .returned :=
  ⟨rfl, rfl, rfl, rfl, rfl⟩

/-- Claim C3 (code bug): a nil error is not a no-op.  In the synchronous
variant, `logFormat` dereferences the nil error, and the recovered panic
is itself written to the sink as an error-level entry; in the
asynchronous variant a terminal call with a nil error blocks its caller
forever. -/
theorem c3_nil_error_not_noop :
    (errorTransmitSync ⟨"debug", "stdout"⟩ "ts" true "main" "info" none false false).events
      = [Ev.sink ⟨.error, panicMsg .nilDeref⟩]
    ∧ countSink (errorTransmitSync ⟨"debug", "stdout"⟩ "ts" true "main" "info"
        none false false).events = 1
    ∧ (errorTransmitAsync false true "ts" "main" "info" none true false).outcome
      = Outcome.deadlocked :=
  ⟨rfl, rfl, rfl⟩

/-- Claim C4 (code bug): nothing serializes entry into the shutdown
sequence: under the interleaving in which each of two racing terminal
calls reaches its `releaseFunc()` statement before either reaches
`os.Exit(1)`, the release callback is invoked twice. -/
theorem c4_double_release :
    (raceRun [false, false, false, false, true, true, true, true]).releaseCount = 2
    ∧ (raceRun [false, false, false, false, true, true, true, true]).exited = false := by
  decide

/-- Claim C5: coordinator construction succeeds exactly for the log
levels debug, info, warn and error, and fails with an error (producing
no coordinator) for every other log-level string — in both variants
(the synchronous one under any output target other than the rotating
file writer). -/
theorem c5_log_level_construction (lvl out : String) (fileOk rc : Bool) (ecl : Nat)
    (h : out ≠ "file") :
    ((∃ pm, newProjectInfrastructureSync fileOk ⟨lvl, out⟩ rc = .ok pm)
        ↔ lvl ∈ supportLogTypes)
    ∧ ((∃ pm, newProjectManagementAsync ⟨lvl, ecl, rc⟩ = .ok pm)
        ↔ lvl ∈ supportLogTypes) := by
  constructor
  · unfold newProjectInfrastructureSync initLogrusSync
    by_cases h1 : out = "stdout" <;>
      simp [h1, h, supportLogTypes] <;> split_ifs <;> simp_all
  · unfold newProjectManagementAsync initLogrusAsync
    split_ifs <;> simp_all [supportLogTypes]

/-- Witness for C5 at the log level `info` and the output target
`stdout`. -/
theorem c5_log_level_construction_witness :
    (("stdout" : String) ≠ "file")
    ∧ (((∃ pm, newProjectInfrastructureSync true ⟨"info", "stdout"⟩ true = .ok pm)
        ↔ "info" ∈ supportLogTypes)
      ∧ ((∃ pm, newProjectManagementAsync ⟨"info", 20, true⟩ = .ok pm)
        ↔ "info" ∈ supportLogTypes)) :=
  ⟨by decide, c5_log_level_construction "info" "stdout" true true 20 (by decide)⟩

end Infra

namespace Infra

/-- Claim C6: an unrecognized severity with a non-nil error still
produces exactly one log entry, routed through the sink's error-level
method and prefixed with the distinguishing unsupported-severity marker,
in both variants. -/
theorem c6_unsupported_severity (opts : SyncOptions) (now module severity : String)
    (e : GoError) (ps : Bool) (h : severity ∉ supportLogTypes) :
    logOutputSync opts now module severity (some e) ps
      = ([⟨.error, "[unsupport error type: " ++ severity ++ "]"
          ++ logFormatSync opts now (cause e) module⟩], none)
    ∧ logOutputAsync now module severity e ps
      = ⟨.error, "[unsupport error type: " ++ severity ++ "]"
          ++ logFormatAsync now (cause e) module⟩
    ∧ (∃ rest, "[unsupport error type: " ++ severity ++ "]"
          ++ logFormatSync opts now (cause e) module
        = "[unsupport error type: " ++ rest) := by
  simp only [supportLogTypes, List.mem_cons, List.not_mem_nil, or_false, not_or] at h
  obtain ⟨h1, h2, h3, h4⟩ := h
  refine ⟨?_, ?_, ?_⟩
  · simp [logOutputSync, logFormatSyncOpt, causeOpt, h1, h2, h3, h4]
  · simp [logOutputAsync, h1, h2, h3, h4]
  · exact ⟨severity ++ "]" ++ logFormatSync opts now (cause e) module,
      by simp [String.append_assoc]⟩

/-- Witness for C6 at the unrecognized severity `fatal`. -/
theorem c6_unsupported_severity_witness :
    ("fatal" ∉ supportLogTypes)
    ∧ (logOutputSync ⟨"debug", "stdout"⟩ "ts" "main" "fatal" (some (.base "boom")) false
        = ([⟨.error, "[unsupport error type: " ++ "fatal" ++ "]"
            ++ logFormatSync ⟨"debug", "stdout"⟩ "ts" (cause (.base "boom")) "main"⟩], none)
      ∧ logOutputAsync "ts" "main" "fatal" (.base "boom") false
        = ⟨.error, "[unsupport error type: " ++ "fatal" ++ "]"
            ++ logFormatAsync "ts" (cause (.base "boom")) "main"⟩
      ∧ (∃ rest, "[unsupport error type: " ++ "fatal" ++ "]"
            ++ logFormatSync ⟨"debug", "stdout"⟩ "ts" (cause (.base "boom")) "main"
          = "[unsupport error type: " ++ rest)) :=
  ⟨by decide, c6_unsupported_severity ⟨"debug", "stdout"⟩ "ts" "main" "fatal"
    (.base "boom") false (by decide)⟩

/-- Claim C7: with a recognized severity, `printStack=false` displays
only the root cause — the output is unchanged if the error is replaced
by its root cause, and the condensed body is the root message —
while `printStack=true` displays every layer of the cause chain: the
entry's body is the newline-join of all layer messages, and each layer's
message occurs in the entry. -/
theorem c7_root_vs_chain (opts : SyncOptions) (now module severity : String)
    (e : GoError) (h : severity ∈ supportLogTypes) :
    logOutputSync opts now module severity (some e) false
      = logOutputSync opts now module severity (some (cause e)) false
    ∧ errMessage (cause e) = rootMsg e
    ∧ (∃ c, logOutputSync opts now module severity (some e) true = ([c], none)
        ∧ c.msg = errorStackMsgSync opts now module ++ "\n" ++ joinLines (layers e)
        ∧ ∀ s ∈ layers e, s.data <:+: c.msg.data)
    ∧ logOutputAsync now module severity e false
      = logOutputAsync now module severity (cause e) false
    ∧ (logOutputAsync now module severity e true).msg
      = errorStackMsgAsync now module ++ "\n" ++ joinLines (layers e) := by
  refine ⟨logOutputSync_cause_inv opts now module severity e h, errMessage_cause e, ?_,
    logOutputAsync_cause_inv now module severity e h, ?_⟩
  · obtain ⟨lvl, hl⟩ := logOutputSync_stack opts now module severity (some e) h
    refine ⟨⟨lvl, errorStackMsgSync opts now module ++ "\n" ++ fmtPlusVOpt (some e)⟩,
      hl, ?_, ?_⟩
    · show errorStackMsgSync opts now module ++ "\n" ++ fmtPlusVOpt (some e) = _
      rw [show fmtPlusVOpt (some e) = fmtPlusV e from rfl, fmtPlusV_eq_joinLines]
    · intro s hs
      show s.data <:+: (errorStackMsgSync opts now module ++ "\n"
        ++ fmtPlusVOpt (some e)).data
      rw [show fmtPlusVOpt (some e) = fmtPlusV e from rfl, fmtPlusV_eq_joinLines]
      exact infix_stack_msg _ e s hs
  · obtain ⟨lvl, hl⟩ := logOutputAsync_stack now module severity e h
    rw [hl]
    show errorStackMsgAsync now module ++ "\n" ++ fmtPlusV e = _
    rw [fmtPlusV_eq_joinLines]

/-- Witness for C7 at severity `info` with the doubly-layered error
`second: first` of the repository README example. -/
theorem c7_root_vs_chain_witness :
    ("info" ∈ supportLogTypes)
    ∧ (logOutputSync ⟨"debug", "stdout"⟩ "ts" "main" "info"
          (some (.wrap "second" (.base "first"))) false
        = logOutputSync ⟨"debug", "stdout"⟩ "ts" "main" "info"
          (some (cause (.wrap "second" (.base "first")))) false
      ∧ errMessage (cause (.wrap "second" (.base "first")))
          = rootMsg (.wrap "second" (.base "first"))
      ∧ (∃ c, logOutputSync ⟨"debug", "stdout"⟩ "ts" "main" "info"
            (some (.wrap "second" (.base "first"))) true = ([c], none)
          ∧ c.msg = errorStackMsgSync ⟨"debug", "stdout"⟩ "ts" "main" ++ "\n"
              ++ joinLines (layers (.wrap "second" (.base "first")))
          ∧ ∀ s ∈ layers (.wrap "second" (.base "first")), s.data <:+: c.msg.data)
      ∧ logOutputAsync "ts" "main" "info" (.wrap "second" (.base "first")) false
        = logOutputAsync "ts" "main" "info" (cause (.wrap "second" (.base "first"))) false
      ∧ (logOutputAsync "ts" "main" "info" (.wrap "second" (.base "first")) true).msg
        = errorStackMsgAsync "ts" "main" ++ "\n"
            ++ joinLines (layers (.wrap "second" (.base "first")))) :=
  ⟨by decide, c7_root_vs_chain ⟨"debug", "stdout"⟩ "ts" "main" "info"
    (.wrap "second" (.base "first")) (by decide)⟩

/-- Claim C8: with a recognized severity and a non-nil error, each
variant produces exactly one log entry, and the displayed module name is
the truncation of the input module to at most 10 characters: the output
only depends on the truncated module, whose length is at most 10. -/
theorem c8_module_truncation (opts : SyncOptions) (now module severity : String)
    (e : GoError) (ps rc : Bool) (h : severity ∈ supportLogTypes) :
    (logOutputSync opts now module severity (some e) ps).1.length = 1
    ∧ countSink (errorTransmitSync opts now rc module severity (some e) false ps).events = 1
    ∧ countSink (errorTransmitAsync false rc now module severity (some e) false ps).events = 1
    ∧ logOutputSync opts now module severity (some e) ps
      = logOutputSync opts now (truncateModule module) severity (some e) ps
    ∧ logOutputAsync now module severity e ps
      = logOutputAsync now (truncateModule module) severity e ps
    ∧ (truncateModule module).length ≤ 10 := by
  obtain ⟨c, hc⟩ := logOutputSync_some opts now module severity e ps
  refine ⟨?_, ?_, rfl,
    (logOutputSync_trunc opts now module severity (some e) ps).symm,
    (logOutputAsync_trunc now module severity e ps).symm,
    truncateModule_length module⟩
  · rw [hc]
    rfl
  · unfold errorTransmitSync errorTransmitSyncBody
    rw [hc]
    rfl

/-- Witness for C8 at severity `warn` with a 18-character module name. -/
theorem c8_module_truncation_witness :
    ("warn" ∈ supportLogTypes)
    ∧ ((logOutputSync ⟨"debug", "stdout"⟩ "ts" "verylongmodulename" "warn"
          (some (.base "boom")) false).1.length = 1
      ∧ countSink (errorTransmitSync ⟨"debug", "stdout"⟩ "ts" true "verylongmodulename"
          "warn" (some (.base "boom")) false false).events = 1
      ∧ countSink (errorTransmitAsync false true "ts" "verylongmodulename" "warn"
          (some (.base "boom")) false false).events = 1
      ∧ logOutputSync ⟨"debug", "stdout"⟩ "ts" "verylongmodulename" "warn"
          (some (.base "boom")) false
        = logOutputSync ⟨"debug", "stdout"⟩ "ts" (truncateModule "verylongmodulename")
          "warn" (some (.base "boom")) false
      ∧ logOutputAsync "ts" "verylongmodulename" "warn" (.base "boom") false
        = logOutputAsync "ts" (truncateModule "verylongmodulename") "warn"
          (.base "boom") false
      ∧ (truncateModule "verylongmodulename").length ≤ 10) :=
  ⟨by decide, c8_module_truncation ⟨"debug", "stdout"⟩ "ts" "verylongmodulename" "warn"
    (.base "boom") false true (by decide)⟩

/-- Claim C9: a failure of the sink write path is swallowed inside the
coordinator and surfaced only as a best-effort diagnostic entry.  In the
synchronous variant, whenever the body of `ErrorTransmit` panics, the
call still returns to its caller having appended one error-level
diagnostic entry; in the asynchronous variant, sending on the
already-closed error channel always returns with exactly the recovered
`send error to closed channel` diagnostic. -/
theorem c9_sink_failure_swallowed (opts : SyncOptions) (now module severity : String)
    (rc : Bool) (err : Option GoError) (eap ps : Bool) (p : GoPanic)
    (h : (errorTransmitSyncBody opts now rc module severity err eap ps).2 = .panicked p) :
    errorTransmitSync opts now rc module severity err eap ps
      = ⟨(errorTransmitSyncBody opts now rc module severity err eap ps).1
          ++ [Ev.sink ⟨.error, panicMsg p⟩], .returned⟩
    ∧ ∀ (rc2 : Bool) (now2 m2 s2 : String) (e2 : Option GoError) (a2 p2 : Bool),
        errorTransmitAsync true rc2 now2 m2 s2 e2 a2 p2
          = ⟨[Ev.sink ⟨.error, "send error to closed channel: "
              ++ panicMsg .sendOnClosed⟩], .returned⟩ := by
  constructor
  · rcases hb : errorTransmitSyncBody opts now rc module severity err eap ps with ⟨evs, en⟩
    rw [hb] at h
    have h2 : en = .panicked p := h
    subst h2
    unfold errorTransmitSync
    rw [hb]
  · intro rc2 now2 m2 s2 e2 a2 p2
    rfl

/-- Witness for C9 at a panicking body (nil error, condensed path). -/
theorem c9_sink_failure_swallowed_witness :
    ((errorTransmitSyncBody ⟨"debug", "stdout"⟩ "ts" true "main" "info" none
        false false).2 = .panicked .nilDeref)
    ∧ (errorTransmitSync ⟨"debug", "stdout"⟩ "ts" true "main" "info" none false false
        = ⟨(errorTransmitSyncBody ⟨"debug", "stdout"⟩ "ts" true "main" "info" none
            false false).1 ++ [Ev.sink ⟨.error, panicMsg .nilDeref⟩], .returned⟩
      ∧ ∀ (rc2 : Bool) (now2 m2 s2 : String) (e2 : Option GoError) (a2 p2 : Bool),
          errorTransmitAsync true rc2 now2 m2 s2 e2 a2 p2
            = ⟨[Ev.sink ⟨.error, "send error to closed channel: "
                ++ panicMsg .sendOnClosed⟩], .returned⟩) :=
  ⟨rfl, c9_sink_failure_swallowed ⟨"debug", "stdout"⟩ "ts" "main" "info" true none
    false false .nilDeref rfl⟩

/-- Claim C10: in the synchronous variant, under an output target that is
neither `stdout` nor `file`, `logFormat` and `errorStackMsg` return the
empty string for every error and module, a condensed report carries an
empty message body, and yet sink initialization falls back to standard
output with only a warning. -/
theorem c10_unknown_output_empty (now lvl out module : String) (e : GoError)
    (fileOk : Bool) (h1 : out ≠ "stdout") (h2 : out ≠ "file") :
    logFormatSync ⟨lvl, out⟩ now e module = ""
    ∧ errorStackMsgSync ⟨lvl, out⟩ now module = ""
    ∧ logOutputSync ⟨lvl, out⟩ now module "info" (some e) false = ([⟨.info, ""⟩], none)
    ∧ initLogrusSync fileOk ⟨"debug", out⟩
      = .ok (⟨"stdout", [⟨.warn, "unknown log output type: " ++ out
          ++ ", use default stdout"⟩]⟩, .debug) := by
  refine ⟨?_, ?_, ?_, ?_⟩
  · simp [logFormatSync, h1, h2]
  · simp [errorStackMsgSync, h1, h2]
  · simp [logOutputSync, logFormatSyncOpt, causeOpt, logFormatSync, h1, h2]
  · simp [initLogrusSync, h1, h2]

/-- Witness for C10 at the unrecognized output target `syslog`. -/
theorem c10_unknown_output_empty_witness :
    (("syslog" : String) ≠ "stdout")
    ∧ (("syslog" : String) ≠ "file")
    ∧ (logFormatSync ⟨"debug", "syslog"⟩ "ts" (.base "boom") "main" = ""
      ∧ errorStackMsgSync ⟨"debug", "syslog"⟩ "ts" "main" = ""
      ∧ logOutputSync ⟨"debug", "syslog"⟩ "ts" "main" "info" (some (.base "boom")) false
          = ([⟨.info, ""⟩], none)
      ∧ initLogrusSync true ⟨"debug", "syslog"⟩
          = .ok (⟨"stdout", [⟨.warn, "unknown log output type: " ++ "syslog"
              ++ ", use default stdout"⟩]⟩, .debug)) :=
  ⟨by decide, by decide, c10_unknown_output_empty "ts" "debug" "syslog" "main"
    (.base "boom") true (by decide) (by decide)⟩

end Infra
